import Mathlib

/-!
# Base-PKG, package `etcd`: lease-backed mutex and watch dispatcher

A shallow embedding of `src/etcd/mutex.go`, `src/etcd/watcher.go`, the struct
payload methods of `src/etcd/priorityQ.go` and `EKV.Get` of `src/etcd/clientKV.go`.

Modelling conventions.

* A Go `error` is `Option Error`; `none` is `nil`.
* The etcd server is a value of type `Store`: the key space plus the list of the
  requests that clients have issued so far.  Every response of the server that the
  code cannot predict (a fault, the lease id chosen by `Grant`) is an explicit
  argument of the method that receives it.
* A method with a pointer receiver takes the receiver's fields and returns the
  updated fields.
* `zap` logging has no effect on any value the code returns and is left out.
-/

set_option linter.dupNamespace false

namespace Etcd

/-! ## Errors -/

/-- Go error values: the package variable `MutexGrabFAIL` (mutex.go:12), any other
error value identified by its message, and an error that wraps another one (what
`errors.Is` looks through). -/
inductive Error where
  | MutexGrabFAIL : Error
  | other (msg : String) : Error
  | wrap (msg : String) (inner : Error) : Error
  deriving DecidableEq, Repr

/-- The method `Error()` of an error value: its message.  `MutexGrabFAIL` is
`errors.New("抢锁失败")`. -/
def Error.Error : Error → String
  | .MutexGrabFAIL => "抢锁失败"
  | .other msg => msg
  | .wrap msg _ => msg

/-- Go `errors.Is err target`: `err` or an error in its chain of wrapped errors is
`target`. -/
def errorsIs : Error → Error → Bool
  | .wrap msg inner, target =>
      if Error.wrap msg inner = target then true else errorsIs inner target
  | err, target => decide (err = target)

/-! ## The store -/

/-- A lease identifier, `clientv3.LeaseID` (an `int64`). -/
abbrev LeaseID := Int

/-- An entry of the key space: its value and the lease it is bound to. -/
structure KeyValue where
  Value : String
  Lease : LeaseID
  deriving DecidableEq, Repr

/-- A request issued to the store by a client. -/
inductive Request where
  | Grant (ttl : Int) : Request
  | KeepAlive (id : LeaseID) : Request
  | Txn (key : String) (v : String) (id : LeaseID) : Request
  | Revoke (id : LeaseID) : Request
  deriving DecidableEq, Repr

/-- The etcd server as the code sees it: `kvs key` is the live entry of `key` (a
key has creation revision 0 exactly when it has no entry), `requests` the requests
issued so far, oldest first. -/
structure Store where
  kvs : String → Option KeyValue
  requests : List Request

/-- The store after one more request has been issued. -/
def Store.record (s : Store) (q : Request) : Store :=
  { s with requests := s.requests ++ [q] }

/-- The range request `Get key`: the list `Kvs` of the response. -/
def Store.Get (s : Store) (key : String) : List KeyValue :=
  (s.kvs key).toList

/-- The transaction built at mutex.go:123,
`If(CreateRevision(key) = 0).Then(OpPut(key, v, WithLease(id))).Else(OpGet(key))`,
committed.  With `fault = some err` the commit returns `err` and nothing is
applied; otherwise the store evaluates the comparison and applies one branch as a
single atomic step, and the response carries `Succeeded`. -/
def Store.Commit (s : Store) (key v : String) (id : LeaseID) (fault : Option Error) :
    Except Error Bool × Store :=
  let s1 := s.record (.Txn key v id)
  match fault with
  | some err => (.error err, s1)
  | none =>
    match s.kvs key with
    | none =>
      (.ok true, { s1 with kvs := fun k => if k = key then some ⟨v, id⟩ else s.kvs k })
    | some _ => (.ok false, s1)

/-- The request `Revoke id`.  With `fault = some err` it returns `err` and nothing
is applied; otherwise the lease is gone and, by the lease-key coupling of the
store, so is every key bound to it. -/
def Store.Revoke (s : Store) (id : LeaseID) (fault : Option Error) : Option Error × Store :=
  let s1 := s.record (.Revoke id)
  match fault with
  | some err => (some err, s1)
  | none =>
    (none, { s1 with kvs := fun k => (s.kvs k).filter (fun kv => decide (kv.Lease ≠ id)) })

/-! ## EtcdMutex (mutex.go) -/

/-- The fields of `EtcdMutex` (mutex.go:27-36) that carry state.  `cancel` is the
cancel function stored in the field, represented by the number of times that
function has been called: every `Lock` stores a fresh one (mutex.go:88), and the
only other read of the field is under the `lock` guard of `UnLock`, which only
`Lock` sets.  The handles `client`, `lease` and `txn` are re-created by every
`Lock` and hold no state of their own. -/
structure EtcdMutex where
  ttl : Int
  Key : String
  cancel : Nat
  leaseId : LeaseID
  lock : Bool
  deriving DecidableEq, Repr

/-- What the store answers to the calls of one `Lock`: the lease `Grant`
(mutex.go:95), the two `KeepAlive` calls (mutex.go:102 and 103) and the `Commit`
(mutex.go:124, `none` when it returns a response). -/
structure LockResponses where
  Grant : Except Error LeaseID
  KeepAlive1 : Option Error
  KeepAlive2 : Option Error
  Commit : Option Error

/-- What a method of the mutex leaves behind: the error it returns, the fields of
the receiver and the store. -/
structure Outcome where
  err : Option Error
  mutex : EtcdMutex
  store : Store

/-- The error `context.Canceled`, which a call on a cancelled context returns. -/
def contextCanceled : Error := .other "context canceled"

/-- The `FAIL` label of `Lock` (mutex.go:132-136): call `e.cancel()`, issue
`Revoke` for `e.leaseId` ignoring its result, return `err`.  The revoke is issued on
`ctx`, the context that `e.cancel()` has cancelled the line before (both come from
the `context.WithCancel` of mutex.go:88), so it returns `context.Canceled` and the
store applies nothing. -/
def EtcdMutex.fail (e : EtcdMutex) (err : Error) (s : Store) : Outcome :=
  let e1 := { e with cancel := e.cancel + 1 }
  ⟨some err, e1, (s.Revoke e1.leaseId (some contextCanceled)).2⟩

/-- The method `Lock` (mutex.go:82-137).  The goroutine of mutex.go:107-119 only
receives from the keepalive channel and changes no field and no key. -/
def EtcdMutex.Lock (e : EtcdMutex) (v : String) (r : LockResponses) (s : Store) : Outcome :=
  -- mutex.go:88  ctx, e.cancel = context.WithCancel(context.TODO())
  let e1 := { e with cancel := 0 }
  -- mutex.go:95  e.lease.Grant(context.TODO(), e.ttl)
  let s1 := s.record (.Grant e1.ttl)
  match r.Grant with
  | .error err => e1.fail err s1
  | .ok id =>
    -- mutex.go:100  e.leaseId = leaseResp.ID
    let e2 := { e1 with leaseId := id }
    -- mutex.go:102-103  KeepAlive is called twice, the second error decides
    let s2 := (s1.record (.KeepAlive e2.leaseId)).record (.KeepAlive e2.leaseId)
    match r.KeepAlive2 with
    | some err => e2.fail err s2
    | none =>
      -- mutex.go:120  e.lock = true
      let e3 := { e2 with lock := true }
      -- mutex.go:123-131
      match s2.Commit e3.Key v e3.leaseId r.Commit with
      | (.error err, s3) => ⟨some err, e3, s3⟩
      | (.ok false, s3) => ⟨some .MutexGrabFAIL, e3, s3⟩
      | (.ok true, s3) => ⟨none, e3, s3⟩

/-- The method `UnLock` (mutex.go:145-155); `revoke` is what the store answers to
the `Revoke` of mutex.go:148.  `fmt.Errorf` with the verb `%v` formats the revoke
error into the message of a new error. -/
def EtcdMutex.UnLock (e : EtcdMutex) (revoke : Option Error) (s : Store) : Outcome :=
  if e.lock then
    let e1 := { e with cancel := e.cancel + 1 }
    match s.Revoke e1.leaseId revoke with
    | (some err, s1) => ⟨some (.other ("释放锁异常: " ++ err.Error)), e1, s1⟩
    | (none, s1) => ⟨none, e1, s1⟩
  else
    ⟨none, e, s⟩

/-- A store with no key and no request. -/
def Store.empty : Store := ⟨fun _ => none, []⟩

/-- A freshly constructed mutex for key `name` that has not locked anything. -/
def EtcdMutex.fresh (name : String) (ttl : Int) : EtcdMutex :=
  ⟨ttl, name, 0, 0, false⟩

/-- Responses of a store on which every call of a `Lock` succeeds and `Grant`
returns the lease `id`. -/
def LockResponses.ok (id : LeaseID) : LockResponses :=
  ⟨.ok id, none, none, none⟩

/-- A store whose only key is `key`, held with value `v` under lease `id`. -/
def Store.holding (key v : String) (id : LeaseID) : Store :=
  ⟨fun k => if k = key then some ⟨v, id⟩ else none, []⟩

/-- The mutex and store after a fresh mutex on key `k` locked an empty store with
lease 7 and then unlocked with a successful revoke. -/
def afterLockUnLock : Outcome :=
  ((EtcdMutex.fresh "k" 5).Lock "a" (.ok 7) Store.empty).mutex.UnLock none
    ((EtcdMutex.fresh "k" 5).Lock "a" (.ok 7) Store.empty).store

/-- The mutex and store after a fresh mutex on key `k` locked an empty store with
lease 7: the mutex holds the key. -/
def afterLock : Outcome :=
  (EtcdMutex.fresh "k" 5).Lock "a" (.ok 7) Store.empty

/-- Responses of a store whose lease `Grant` fails with `err` and on which every
other call succeeds. -/
def LockResponses.grantFails (err : Error) : LockResponses :=
  ⟨.error err, none, none, none⟩

/-- The `int64` value that Go arithmetic gives for the integer `x`: the result
wraps around in two's complement. -/
def int64 (x : Int) : Int :=
  (x + 2 ^ 63) % 2 ^ 64 - 2 ^ 63

/-- The method `Init` (mutex.go:62-74); `grant` is what the store answers to the
`Grant` of mutex.go:66 and `keepAlive` to the `KeepAlive` of mutex.go:72.  The sum
`leaseResp.ID + 1` of mutex.go:71 is a sum of `int64` values. -/
def EtcdMutex.Init (e : EtcdMutex) (grant : Except Error LeaseID) (keepAlive : Option Error)
    (s : Store) : Outcome :=
  -- mutex.go:66  e.lease.Grant(context.TODO(), e.ttl)
  let s1 := s.record (.Grant e.ttl)
  match grant with
  | .error err => ⟨some err, e, s1⟩
  | .ok id =>
    -- mutex.go:70-71  a fresh cancel function, e.leaseId = leaseResp.ID + 1
    let e1 := { e with cancel := 0, leaseId := int64 (id + 1) }
    -- mutex.go:72-73  KeepAlive on e.leaseId, its error is returned
    ⟨keepAlive, e1, s1.record (.KeepAlive e1.leaseId)⟩

/-- The constructor `NewMutex` (mutex.go:46-60): `nil` when the shared client was
not initialised (`invited`) or holds an error (`cliErr`); otherwise the new mutex
after `Init`, whose error is dropped. -/
def NewMutex (invited : Bool) (cliErr : Option Error) (name : String) (ttl : Int)
    (grant : Except Error LeaseID) (keepAlive : Option Error) (s : Store) :
    Option EtcdMutex × Store :=
  if !invited then (none, s)
  else
    match cliErr with
    | some _ => (none, s)
    | none =>
      (some ((EtcdMutex.fresh name ttl).Init grant keepAlive s).mutex,
        ((EtcdMutex.fresh name ttl).Init grant keepAlive s).store)

/-- A keepalive acknowledgement `*clientv3.LeaseKeepAliveResponse` that is not
nil. -/
structure LeaseKeepAliveResponse where
  ID : LeaseID
  TTL : Int
  deriving DecidableEq, Repr

/-- Where the goroutine of mutex.go:107-119 stands: how many non-nil
acknowledgements it has received, how many times it has slept, and whether it has
reached the label `END`. -/
structure KeepAliveTask where
  consumed : Nat
  sleeps : Nat
  ended : Bool
  deriving DecidableEq, Repr

/-- The goroutine of mutex.go:107-119 run on the values that the receive
`<-keepResChan` yields, in order: `some` for an acknowledgement, `none` for `nil`,
which is what a closed channel yields.  After an acknowledgement the task sleeps and
receives again; on `nil` it jumps to `END`; with no value left to receive it stays
blocked in the `select`. -/
def keepAliveTask : List (Option LeaseKeepAliveResponse) → KeepAliveTask
  | [] => ⟨0, 0, false⟩
  | none :: _ => ⟨0, 0, true⟩
  | some _ :: rest =>
    ⟨(keepAliveTask rest).consumed + 1, (keepAliveTask rest).sleeps + 1,
      (keepAliveTask rest).ended⟩

/-! ## Watcher (watcher.go) -/

/-- The type of a watch event, `clientv3.EventTypePut` or
`clientv3.EventTypeDelete`. -/
inductive EventType where
  | PUT : EventType
  | DELETE : EventType
  deriving DecidableEq, Repr

/-- A watch event `*clientv3.Event`: its type and the key and value of its `Kv`. -/
structure Event where
  typ : EventType
  Key : String
  Value : String
  deriving DecidableEq, Repr

/-- The interface `EMutex` (mutex.go:16-20) over a world of type `σ`: each method
returns its error and the world it leaves. -/
structure EMutex (σ : Type) where
  Lock : String → σ → Option Error × σ
  UnLock : σ → Option Error × σ

/-- Put branch, watcher.go:97: `err := w.mtx.Lock(time.Now().String())`; `now`
reads the clock of the world. -/
def watcher.putLock {σ : Type} (mtx : EMutex σ) (now : σ → String) (w : σ) :
    Option Error × σ :=
  mtx.Lock (now w) w

/-- Put branch, the switch of watcher.go:104-114: the handler runs when `err` is
`nil`; both other cases return. -/
def watcher.putSwitch {σ : Type} (putFunc : Event → σ → σ) (event : Event)
    (err : Option Error) (w : σ) : σ :=
  match err with
  | none => putFunc event w
  | some e => if errorsIs e .MutexGrabFAIL then w else w

/-- Put branch, the deferred call of watcher.go:98-102: `UnLock`, whose error is
only logged.  It is registered before the switch and so runs on every return. -/
def watcher.putDeferred {σ : Type} (mtx : EMutex σ) (w : σ) : σ :=
  (mtx.UnLock w).2

/-- The body of the inner loop of `Watcher` (watcher.go:92-141) for one event.  In
the Delete branch both tests of watcher.go:121-128 return before the `defer` of
watcher.go:132 is registered. -/
def watcher.handle {σ : Type} (mtx : EMutex σ) (now : σ → String)
    (putFunc : Event → σ → σ) (delFunc : σ → σ) (event : Event) (w : σ) : σ :=
  match event.typ with
  | .PUT =>
    let r := watcher.putLock mtx now w
    watcher.putDeferred mtx (watcher.putSwitch putFunc event r.1 r.2)
  | .DELETE =>
    let r := mtx.Lock (now w) w
    match r.1 with
    | some e => if e.Error ≠ "抢锁失败" then r.2 else r.2
    | none => (mtx.UnLock (delFunc r.2)).2

/-- The method `Watcher` (watcher.go:88-144) run on the watch responses that the
channel delivers before it is closed, each with its list `Events`. -/
def watcher.Watcher {σ : Type} (mtx : EMutex σ) (now : σ → String)
    (responses : List (List Event)) (putFunc : Event → σ → σ) (delFunc : σ → σ) (w : σ) : σ :=
  responses.foldl
    (fun w res => res.foldl (fun w event => watcher.handle mtx now putFunc delFunc event w) w) w

/-! ### A scripted mutex that records the calls of the dispatcher -/

/-- A call made by `Watcher`: the `n`-th `Lock` (counted from 0), an `UnLock`, or a
handler. -/
inductive Call where
  | Lock (n : Nat) : Call
  | UnLock : Call
  | putFunc (event : Event) : Call
  | delFunc : Call
  deriving DecidableEq, Repr

/-- The world of a dispatcher run against a scripted mutex: how many `Lock` and
`UnLock` calls were made and all calls in order. -/
structure Run where
  locks : Nat
  unlocks : Nat
  calls : List Call
  deriving DecidableEq, Repr

/-- An `EMutex` whose `n`-th `Lock` returns `lockOutcome n` and whose `n`-th
`UnLock` returns `unlockOutcome n`. -/
def scripted (lockOutcome unlockOutcome : Nat → Option Error) : EMutex Run where
  Lock := fun _ w => (lockOutcome w.locks, ⟨w.locks + 1, w.unlocks, w.calls ++ [.Lock w.locks]⟩)
  UnLock := fun w => (unlockOutcome w.unlocks, ⟨w.locks, w.unlocks + 1, w.calls ++ [.UnLock]⟩)

/-- The handler `putFunc` as a recorded call. -/
def Run.putFunc (event : Event) (w : Run) : Run :=
  { w with calls := w.calls ++ [.putFunc event] }

/-- The handler `delFunc` as a recorded call. -/
def Run.delFunc (w : Run) : Run :=
  { w with calls := w.calls ++ [.delFunc] }

/-- The handler call that matches an event: `putFunc` with the event for a Put,
`delFunc` for a Delete. -/
def Call.handler (event : Event) : Call :=
  match event.typ with
  | .PUT => .putFunc event
  | .DELETE => .delFunc

/-- The dispatch contract in the words of the specification: for the events in
arrival order, numbered from `i`, one `Lock` attempt per event, followed by the
matching handler exactly when that `Lock` returned success. -/
def dispatchSpec (lockOutcome : Nat → Option Error) : Nat → List Event → List Call
  | _, [] => []
  | i, event :: rest =>
    (Call.Lock i :: (if lockOutcome i = none then [Call.handler event] else []))
      ++ dispatchSpec lockOutcome (i + 1) rest

/-- The `Lock` attempts and handler calls of a run, in order. -/
def Run.attempts (w : Run) : List Call :=
  w.calls.filter (fun c => decide (c ≠ .UnLock))

/-! ### Two dispatcher instances on one store -/

/-- The two dispatcher instances of the scenario. -/
inductive Instance where
  | A : Instance
  | B : Instance
  deriving DecidableEq, Repr

/-- The other instance. -/
def Instance.other : Instance → Instance
  | .A => .B
  | .B => .A

/-- What an observer of the two instances notes down: what a `Lock` of an instance
returned, and that the `onPut` handler of an instance ran for an event. -/
inductive Note where
  | lockReturned (who : Instance) (err : Option Error) : Note
  | onPut (who : Instance) (event : Event) : Note
  deriving DecidableEq, Repr

/-- The world of the scenario: the shared store, the mutex of each instance (both
on the coordination key) and the notes taken so far. -/
structure Cluster where
  store : Store
  mutexA : EtcdMutex
  mutexB : EtcdMutex
  notes : List Note

/-- The mutex of an instance. -/
def Cluster.mutex (c : Cluster) : Instance → EtcdMutex
  | .A => c.mutexA
  | .B => c.mutexB

/-- The world with the mutex of an instance replaced. -/
def Cluster.setMutex (c : Cluster) (who : Instance) (e : EtcdMutex) : Cluster :=
  match who with
  | .A => { c with mutexA := e }
  | .B => { c with mutexB := e }

/-- What the store answers to an instance while it handles one event: the answers
to the calls of its `Lock` and to the `Revoke` of its `UnLock`. -/
structure Answers where
  lock : LockResponses
  revoke : Option Error

/-- The `EMutex` held by the dispatcher `who`: its `EtcdMutex` on the shared store. -/
def Cluster.mtx (who : Instance) (a : Answers) : EMutex Cluster where
  Lock := fun v c =>
    ((((c.mutex who).Lock v a.lock c.store)).err,
      { c.setMutex who ((c.mutex who).Lock v a.lock c.store).mutex with
        store := ((c.mutex who).Lock v a.lock c.store).store
        notes := c.notes ++ [.lockReturned who ((c.mutex who).Lock v a.lock c.store).err] })
  UnLock := fun c =>
    (((c.mutex who).UnLock a.revoke c.store).err,
      { c.setMutex who ((c.mutex who).UnLock a.revoke c.store).mutex with
        store := ((c.mutex who).UnLock a.revoke c.store).store })

/-- The handler `onPut` of an instance, noted down. -/
def Cluster.onPut (who : Instance) (event : Event) (c : Cluster) : Cluster :=
  { c with notes := c.notes ++ [.onPut who event] }

/-- The handler `onDelete` of an instance; the scenario has no Delete event. -/
def Cluster.onDelete (c : Cluster) : Cluster := c

/-- The instances whose `onPut` handler ran, in order. -/
def Cluster.handlers (c : Cluster) : List Instance :=
  c.notes.filterMap (fun n => match n with
    | .onPut who _ => some who
    | .lockReturned _ _ => none)

/-- What the `Lock` calls of an instance returned, in order. -/
def Cluster.lockResults (c : Cluster) (who : Instance) : List (Option Error) :=
  c.notes.filterMap (fun n => match n with
    | .lockReturned w err => if w = who then some err else none
    | .onPut _ _ => none)

/-- Where a dispatcher stands in the Put branch for one event (watcher.go:94-115):
before `Lock`, before the switch on the error `Lock` returned, before the deferred
`UnLock`, or done. -/
inductive Phase where
  | start : Phase
  | switch (err : Option Error) : Phase
  | deferred : Phase
  | done : Phase
  deriving DecidableEq, Repr

/-- The next of the three steps of the Put branch, taken by the instance `who`.
A step is one call on the mutex, or the switch.  The only request of a `Lock` that
reads or writes a key is its commit, and the only one of an `UnLock` is its revoke,
so a step stands in a schedule where that request is served. -/
def Cluster.step (who : Instance) (a : Answers) (now : Cluster → String) (event : Event)
    (ph : Phase) (c : Cluster) : Phase × Cluster :=
  match ph with
  | .start => (.switch (watcher.putLock (Cluster.mtx who a) now c).1,
      (watcher.putLock (Cluster.mtx who a) now c).2)
  | .switch err => (.deferred, watcher.putSwitch (Cluster.onPut who) event err c)
  | .deferred => (.done, watcher.putDeferred (Cluster.mtx who a) c)
  | .done => (.done, c)

/-- Two dispatchers that each handle the same Put event: the phase of each and the
world they share. -/
structure System where
  phaseA : Phase
  phaseB : Phase
  cluster : Cluster

/-- The instance `who` takes its next step. -/
def System.step (answers : Instance → Answers) (now : Cluster → String) (event : Event)
    (sys : System) (who : Instance) : System :=
  match who with
  | .A => ⟨(Cluster.step .A (answers .A) now event sys.phaseA sys.cluster).1, sys.phaseB,
      (Cluster.step .A (answers .A) now event sys.phaseA sys.cluster).2⟩
  | .B => ⟨sys.phaseA, (Cluster.step .B (answers .B) now event sys.phaseB sys.cluster).1,
      (Cluster.step .B (answers .B) now event sys.phaseB sys.cluster).2⟩

/-- The steps of the two instances interleaved as the schedule says. -/
def System.run (answers : Instance → Answers) (now : Cluster → String) (event : Event)
    (schedule : List Instance) (sys : System) : System :=
  schedule.foldl (System.step answers now event) sys

/-- The schedule in which `first` takes its three steps before the other instance
takes any: the handlings of the event do not overlap. -/
def sequential (first : Instance) : List Instance :=
  [first, first, first, first.other, first.other, first.other]

/-- Only the `onPut` handler of `winner` ran: its `Lock` returned `nil` and the
`Lock` of the other instance returned `MutexGrabFAIL`. -/
def Cluster.onlyHandler (c : Cluster) (winner : Instance) : Prop :=
  c.handlers = [winner] ∧ c.lockResults winner = [none] ∧
    c.lockResults winner.other = [some .MutexGrabFAIL]

/-- Whether only the handler of `winner` ran can be computed. -/
instance Cluster.decidableOnlyHandler (c : Cluster) (winner : Instance) :
    Decidable (c.onlyHandler winner) := by
  unfold Cluster.onlyHandler
  infer_instance

/-- Both `onPut` handlers ran, that of `first` before that of the other instance,
and both `Lock` calls returned `nil`. -/
def Cluster.bothHandlers (c : Cluster) (first : Instance) : Prop :=
  c.handlers = [first, first.other] ∧ c.lockResults first = [none] ∧
    c.lockResults first.other = [none]

/-- Whether both handlers ran can be computed. -/
instance Cluster.decidableBothHandlers (c : Cluster) (first : Instance) :
    Decidable (c.bothHandlers first) := by
  unfold Cluster.bothHandlers
  infer_instance

/-- A `Lock` whose lease grant returns `g`, whose keepalive setup succeeds and whose
commit returns a response. -/
def LockResponses.Healthy (r : LockResponses) (g : LeaseID) : Prop :=
  r.Grant = .ok g ∧ r.KeepAlive2 = none ∧ r.Commit = none

/-- The scenario: both instances start on an empty store with fresh mutexes on the
coordination key `/lock`; `Grant` gives lease 7 to `A` and lease 8 to `B`; every
call succeeds. -/
def scenario : Cluster :=
  ⟨Store.empty, EtcdMutex.fresh "/lock" 5, EtcdMutex.fresh "/lock" 5, []⟩

/-- The answers of the store in the scenario. -/
def scenarioAnswers : Instance → Answers
  | .A => ⟨.ok 7, none⟩
  | .B => ⟨.ok 8, none⟩

/-- The Put event of the scenario: key `/jobs/1` set to `x`. -/
def jobPut : Event := ⟨.PUT, "/jobs/1", "x"⟩

/-! ## Struct payloads of the priority queue (priorityQ.go) -/

/-- A scalar Go value, as held by a struct field or by an entry of a
`map[string]interface{}`: a value of an integer type, a string, or a `float64` whose
value is the integer `n`. -/
inductive Scalar where
  | int (n : Int) : Scalar
  | string (s : String) : Scalar
  | float64 (n : Int) : Scalar
  deriving DecidableEq, Repr

/-- A Go struct value: the name of its type and, for each field in declaration
order, the key that its `json` tag names (a tag without options) and its value. -/
structure Struct where
  typ : String
  fields : List (String × Scalar)
  deriving DecidableEq, Repr

/-- The dynamic value of an `interface{}` that holds no pointer: a struct value, or
a `map[string]interface{}`, given by its entries in the order in which their keys
were first inserted. -/
inductive GoValue where
  | struct (t : Struct) : GoValue
  | map (entries : List (String × Scalar)) : GoValue
  deriving DecidableEq, Repr

/-- A JSON string, or a JSON number written as an integer literal. -/
inductive JSONValue where
  | number (n : Int) : JSONValue
  | string (s : String) : JSONValue
  deriving DecidableEq, Repr

/-- A JSON object, the payload of a queue entry.  The text `string(b)` that is
enqueued is represented by the document it denotes. -/
abbrev JSONObject := List (String × JSONValue)

/-- The encoding of a scalar by `encoding/json`. -/
def Scalar.encode : Scalar → JSONValue
  | .int n => .number n
  | .string s => .string s
  | .float64 n => .number n

/-- Go `json.Marshal(&target)` for a `target` that holds the struct `t`: the
pointer and the interface are followed and the fields are written in order.  Fields
whose tags name the same key are all left out. -/
def jsonMarshal (t : Struct) : JSONObject :=
  (t.fields.filter fun kv => (t.fields.filter fun other => other.1 = kv.1).length = 1).map
    fun kv => (kv.1, kv.2.encode)

/-- The `float64` nearest to the natural number `m`, as the number it denotes: the
53 leading bits of `m`, rounded to nearest with ties to the even significand. -/
def roundFloat64 (m : Nat) : Nat :=
  if m < 2 ^ 53 then m
  else
    (if 2 ^ (Nat.log2 m - 52 - 1) < m % 2 ^ (Nat.log2 m - 52) ∨
        (m % 2 ^ (Nat.log2 m - 52) = 2 ^ (Nat.log2 m - 52 - 1) ∧
          (m / 2 ^ (Nat.log2 m - 52)) % 2 = 1)
      then m / 2 ^ (Nat.log2 m - 52) + 1
      else m / 2 ^ (Nat.log2 m - 52)) * 2 ^ (Nat.log2 m - 52)

/-- Go `strconv.ParseFloat(s, 64)` on the integer literal of `n`: the nearest
`float64`, or `none` when it is out of the range of `float64`, that is when the
rounded magnitude has a bit at position 1024 or above. -/
def parseFloat64 (n : Int) : Option Int :=
  if roundFloat64 n.natAbs >>> 1024 = 0 then some (n.sign * roundFloat64 n.natAbs) else none

/-- What `encoding/json` stores into an empty interface for a JSON value: a
`float64` for a number, an `UnmarshalTypeError` when the number is out of range, a
`string` for a string. -/
def JSONValue.decodeAny : JSONValue → Except Error Scalar
  | .number n =>
    match parseFloat64 n with
    | some f => .ok (.float64 f)
    | none =>
      .error (.other
        ("json: cannot unmarshal number " ++ toString n ++ " into Go value of type float64"))
  | .string s => .ok (.string s)

/-- The assignment `m[k] = v` on the entries of a map. -/
def insertEntry (k : String) (v : Scalar) : List (String × Scalar) → List (String × Scalar)
  | [] => [(k, v)]
  | (k1, v1) :: rest =>
    if k1 = k then (k1, v) :: rest else (k1, v1) :: insertEntry k v rest

/-- A JSON object decoded member by member into the entries of a fresh
`map[string]interface{}`; the first error is the error of the decoding. -/
def decodeObjectAny : JSONObject → List (String × Scalar) →
    Except Error (List (String × Scalar))
  | [], entries => .ok entries
  | member :: rest, entries =>
    match member.2.decodeAny with
    | .ok v => decodeObjectAny rest (insertEntry member.1 v entries)
    | .error err => .error err

/-- Go `json.Unmarshal(data, &target)` for a `target` of static type `interface{}`
that holds no pointer.  The interface is not addressable any deeper, so whatever it
holds, `encoding/json` stores a fresh `map[string]interface{}` into it. -/
def jsonUnmarshal (data : JSONObject) (_target : GoValue) : Except Error GoValue :=
  match decodeObjectAny data [] with
  | .ok entries => .ok (.map entries)
  | .error err => .error err

/-- The method `PushStruct` (priorityQ.go:191-197) for a struct value: the error it
returns and the entry handed to `Enqueue`; `enqueue` is what `Enqueue` returns.
`json.Marshal` has no error for a struct of scalar fields. -/
def priorityQ.PushStruct (target : Struct) (pr : Nat) (enqueue : Option Error) :
    Option Error × JSONObject × Nat :=
  (enqueue, jsonMarshal target, pr)

/-- The method `PopStruct` (priorityQ.go:207-216) for a target that holds no
pointer; `dequeue` is what `Pop`, that is `Dequeue`, returns. -/
def priorityQ.PopStruct (target : GoValue) (dequeue : Except Error JSONObject) :
    Option GoValue × Option Error :=
  match dequeue with
  | .error err => (none, some err)
  | .ok data =>
    match jsonUnmarshal data target with
    | .error err => (none, some err)
    | .ok target1 => (some target1, none)

/-- The value of type `Task` pushed by `Test_priorityQ_PushStruct`
(priorityQ_test.go:62-70). -/
def testTask : Struct :=
  ⟨"Task", [("scheduleId", .int 10), ("batchCode", .int 21748678642), ("batchId", .int 1),
    ("time", .string "2023-1-2 12:23:44"), ("runTime", .string ""), ("publishModel", .int 4),
    ("workOrderId", .int 11023)]⟩

/-- The zero value `Task{}` passed as target by `Test_priorityQ_PopStruct1`
(priorityQ_test.go:120). -/
def zeroTask : Struct :=
  ⟨"Task", [("scheduleId", .int 0), ("batchCode", .int 0), ("batchId", .int 0),
    ("time", .string ""), ("runTime", .string ""), ("publishModel", .int 0),
    ("workOrderId", .int 0)]⟩

/-! ## EKV (clientKV.go) -/

/-- How a Go call ends: it returns a value, or it panics with a run-time error. -/
inductive Returned (α : Type) where
  | value (a : α) : Returned α
  | panic (msg : String) : Returned α
  deriving DecidableEq, Repr

/-- The method `EKV.Get` (clientKV.go:77-83); `resp` is what `e.client.Get` returns:
an error, or a response with the list `Kvs`.  The index expression `resp.Kvs[0]`
of clientKV.go:81 panics on an empty list. -/
def EKV.Get (resp : Except Error (List KeyValue)) : Returned (String × Option Error) :=
  match resp with
  | .error err => .value ("", some err)
  | .ok kvs =>
    match kvs with
    | [] => .panic "runtime error: index out of range [0] with length 0"
    | kv :: _ => .value (kv.Value, none)

/-! ### One dispatcher whose coordination key is held by another owner -/

/-- The Delete event of key `/jobs/1`. -/
def jobDelete : Event := ⟨.DELETE, "/jobs/1", ""⟩

/-- A world in which the coordination key `/lock` is held by another owner under
lease 3. -/
def contended : Cluster :=
  ⟨Store.holding "/lock" "other" 3, EtcdMutex.fresh "/lock" 5, EtcdMutex.fresh "/lock" 5, []⟩

/-- A scripted mutex whose every `Lock` returns `MutexGrabFAIL`. -/
def alwaysContended : EMutex Run :=
  scripted (fun _ => some .MutexGrabFAIL) (fun _ => none)

/-! ## Theorems: EtcdMutex -/

/-- C1. Mutual exclusion.  Two mutexes on the same key call `Lock` on a store in
which the key is absent; both lease grants succeed and the store commits both
conditional transactions (a transaction is submitted only after the keepalive setup
of mutex.go:103 succeeded, and its commit returns a response).  In either
serialization order of the two transactions the call committed first returns `nil`
and the other returns `MutexGrabFAIL`: exactly one succeeds. -/
theorem Lock_mutual_exclusion (eA eB : EtcdMutex) (vA vB : String) (rA rB : LockResponses)
    (gA gB : LeaseID) (s : Store)
    (hkey : eA.Key = eB.Key) (habsent : s.kvs eA.Key = none)
    (hgA : rA.Grant = .ok gA) (hgB : rB.Grant = .ok gB)
    (hkA : rA.KeepAlive2 = none) (hkB : rB.KeepAlive2 = none)
    (hcA : rA.Commit = none) (hcB : rB.Commit = none) :
    ((eA.Lock vA rA s).err = none ∧
      (eB.Lock vB rB (eA.Lock vA rA s).store).err = some Error.MutexGrabFAIL) ∧
    ((eB.Lock vB rB s).err = none ∧
      (eA.Lock vA rA (eB.Lock vB rB s).store).err = some Error.MutexGrabFAIL) := by
  have habsentB : s.kvs eB.Key = none := hkey ▸ habsent
  simp [EtcdMutex.Lock, Store.Commit, Store.record, hgA, hgB, hkA, hkB, hcA, hcB, habsent,
    habsentB, hkey]

/-- Witness of `Lock_mutual_exclusion`: two fresh mutexes on key `k`, leases 7 and 8,
empty store. -/
theorem Lock_mutual_exclusion_witness :
    (((EtcdMutex.fresh "k" 5).Lock "a" (.ok 7) Store.empty).err = none ∧
      ((EtcdMutex.fresh "k" 9).Lock "b" (.ok 8)
        ((EtcdMutex.fresh "k" 5).Lock "a" (.ok 7) Store.empty).store).err
        = some Error.MutexGrabFAIL) ∧
    (((EtcdMutex.fresh "k" 9).Lock "b" (.ok 8) Store.empty).err = none ∧
      ((EtcdMutex.fresh "k" 5).Lock "a" (.ok 7)
        ((EtcdMutex.fresh "k" 9).Lock "b" (.ok 8) Store.empty).store).err
        = some Error.MutexGrabFAIL) :=
  Lock_mutual_exclusion (EtcdMutex.fresh "k" 5) (EtcdMutex.fresh "k" 9) "a" "b" (.ok 7) (.ok 8)
    7 8 Store.empty rfl rfl rfl rfl rfl rfl rfl rfl

/-- C2. Lock success postcondition.  When the lease grant returns the lease `g`,
the keepalive setup succeeds, the commit returns a response and the key is absent,
`Lock v` returns `nil`; the store then holds the key with value `v` bound to `g`;
the mutex is Locked with lease id `g`; its cancel function has not been called; and
the requests issued are the grant with the configured ttl, the two keepalives on
`g` and the transaction. -/
theorem Lock_success_postcondition (e : EtcdMutex) (v : String) (r : LockResponses)
    (g : LeaseID) (s : Store)
    (hg : r.Grant = .ok g) (hk : r.KeepAlive2 = none) (hc : r.Commit = none)
    (habsent : s.kvs e.Key = none) :
    (e.Lock v r s).err = none ∧
    (e.Lock v r s).store.kvs e.Key = some ⟨v, g⟩ ∧
    (e.Lock v r s).mutex.lock = true ∧
    (e.Lock v r s).mutex.leaseId = g ∧
    (e.Lock v r s).mutex.cancel = 0 ∧
    (e.Lock v r s).store.requests
      = s.requests ++ [.Grant e.ttl, .KeepAlive g, .KeepAlive g, .Txn e.Key v g] := by
  simp [EtcdMutex.Lock, Store.Commit, Store.record, hg, hk, hc, habsent]

/-- Witness of `Lock_success_postcondition`: a fresh mutex on key `k`, lease 7,
empty store. -/
theorem Lock_success_postcondition_witness :
    ((EtcdMutex.fresh "k" 5).Lock "a" (.ok 7) Store.empty).err = none ∧
    ((EtcdMutex.fresh "k" 5).Lock "a" (.ok 7) Store.empty).store.kvs "k" = some ⟨"a", 7⟩ ∧
    ((EtcdMutex.fresh "k" 5).Lock "a" (.ok 7) Store.empty).mutex.lock = true ∧
    ((EtcdMutex.fresh "k" 5).Lock "a" (.ok 7) Store.empty).mutex.leaseId = 7 ∧
    ((EtcdMutex.fresh "k" 5).Lock "a" (.ok 7) Store.empty).mutex.cancel = 0 ∧
    ((EtcdMutex.fresh "k" 5).Lock "a" (.ok 7) Store.empty).store.requests
      = [] ++ [.Grant 5, .KeepAlive 7, .KeepAlive 7, .Txn "k" "a" 7] :=
  Lock_success_postcondition (EtcdMutex.fresh "k" 5) "a" (.ok 7) 7 Store.empty rfl rfl rfl rfl

/-- C3. Evaluation of `Lock` at two failing exits that follow a granted lease.
First: the key is held by another owner, the commit returns a response whose
"then" branch did not run, `Lock` returns `MutexGrabFAIL`.  Second: the commit
itself returns an error, `Lock` returns it.  In both the cancel function of the
call has not been called when `Lock` returns and no `Revoke` has been issued: the
requests are the grant, the two keepalives and the transaction. -/
theorem Lock_failing_exit_without_cleanup :
    (((EtcdMutex.fresh "k" 5).Lock "a" (.ok 7) (Store.holding "k" "b" 3)).err
        = some Error.MutexGrabFAIL ∧
      ((EtcdMutex.fresh "k" 5).Lock "a" (.ok 7) (Store.holding "k" "b" 3)).mutex.cancel = 0 ∧
      ((EtcdMutex.fresh "k" 5).Lock "a" (.ok 7) (Store.holding "k" "b" 3)).store.requests
        = [.Grant 5, .KeepAlive 7, .KeepAlive 7, .Txn "k" "a" 7]) ∧
    (((EtcdMutex.fresh "k" 5).Lock "a"
        ⟨.ok 7, none, none, some (.other "context deadline exceeded")⟩ Store.empty).err
        = some (.other "context deadline exceeded") ∧
      ((EtcdMutex.fresh "k" 5).Lock "a"
        ⟨.ok 7, none, none, some (.other "context deadline exceeded")⟩
        Store.empty).mutex.cancel = 0 ∧
      ((EtcdMutex.fresh "k" 5).Lock "a"
        ⟨.ok 7, none, none, some (.other "context deadline exceeded")⟩
        Store.empty).store.requests
        = [.Grant 5, .KeepAlive 7, .KeepAlive 7, .Txn "k" "a" 7]) := by
  decide

/-- C4. Evaluation of a failed acquisition followed by `UnLock`.  A mutex whose
lock flag is false calls `Lock` while another owner holds the key: `Lock` returns
`MutexGrabFAIL` and the lock flag is true.  The following `UnLock` is not a no-op:
it calls the cancel function and issues `Revoke` for the lease 7 of the failed
attempt. -/
theorem Lock_contended_then_UnLock :
    (EtcdMutex.fresh "k" 5).lock = false ∧
    ((EtcdMutex.fresh "k" 5).Lock "a" (.ok 7) (Store.holding "k" "b" 3)).err
      = some Error.MutexGrabFAIL ∧
    ((EtcdMutex.fresh "k" 5).Lock "a" (.ok 7) (Store.holding "k" "b" 3)).mutex.lock = true ∧
    (((EtcdMutex.fresh "k" 5).Lock "a" (.ok 7) (Store.holding "k" "b" 3)).mutex.UnLock none
      ((EtcdMutex.fresh "k" 5).Lock "a" (.ok 7) (Store.holding "k" "b" 3)).store).mutex.cancel
      = 1 ∧
    (((EtcdMutex.fresh "k" 5).Lock "a" (.ok 7) (Store.holding "k" "b" 3)).mutex.UnLock none
      ((EtcdMutex.fresh "k" 5).Lock "a" (.ok 7) (Store.holding "k" "b" 3)).store).store.requests
      = [.Grant 5, .KeepAlive 7, .KeepAlive 7, .Txn "k" "a" 7, .Revoke 7] := by
  decide

/-- C5, as stated, fails: a Locked mutex whose `Revoke` is answered with an error
returns a non-nil error from `UnLock`. -/
theorem UnLock_escalates_revoke_error :
    (⟨5, "k", 0, 7, true⟩ : EtcdMutex).lock = true ∧
    ((⟨5, "k", 0, 7, true⟩ : EtcdMutex).UnLock (some (.other "lease not found"))
      (Store.holding "k" "a" 7)).err = some (.other "释放锁异常: lease not found") := by
  decide

/-- C5, amended.  For every Locked mutex and every answer of the store to `Revoke`,
`UnLock` calls the cancel function once and issues one `Revoke` for the lease of
the mutex; it returns `nil` when the revoke succeeds, and when the revoke fails
with `err` it returns a new error whose message is the text "释放锁异常: " followed
by the message of `err`. -/
theorem UnLock_locked_result (e : EtcdMutex) (revoke : Option Error) (s : Store)
    (hl : e.lock = true) :
    (e.UnLock revoke s).err
      = revoke.map (fun err => Error.other ("释放锁异常: " ++ err.Error)) ∧
    ((e.UnLock revoke s).err = none ↔ revoke = none) ∧
    (e.UnLock revoke s).mutex.cancel = e.cancel + 1 ∧
    (e.UnLock revoke s).store.requests = s.requests ++ [.Revoke e.leaseId] := by
  cases revoke <;> simp [EtcdMutex.UnLock, Store.Revoke, Store.record, hl]

/-- Witness of `UnLock_locked_result`: a Locked mutex with lease 7 whose revoke is
answered with an error. -/
theorem UnLock_locked_result_witness :
    ((⟨5, "k", 0, 7, true⟩ : EtcdMutex).UnLock (some (.other "lease not found"))
      (Store.holding "k" "a" 7)).err
      = (some (Error.other "lease not found")).map
          (fun err => Error.other ("释放锁异常: " ++ err.Error)) ∧
    (((⟨5, "k", 0, 7, true⟩ : EtcdMutex).UnLock (some (.other "lease not found"))
      (Store.holding "k" "a" 7)).err = none ↔ some (Error.other "lease not found") = none) ∧
    ((⟨5, "k", 0, 7, true⟩ : EtcdMutex).UnLock (some (.other "lease not found"))
      (Store.holding "k" "a" 7)).mutex.cancel = 0 + 1 ∧
    ((⟨5, "k", 0, 7, true⟩ : EtcdMutex).UnLock (some (.other "lease not found"))
      (Store.holding "k" "a" 7)).store.requests = [] ++ [.Revoke 7] :=
  UnLock_locked_result ⟨5, "k", 0, 7, true⟩ (some (.other "lease not found"))
    (Store.holding "k" "a" 7) rfl

/-- C6. Evaluation of `Lock`, `UnLock`, `UnLock`.  The `Lock` and the first
`UnLock` return `nil`, and the lock flag is still true after the first `UnLock`.
The second `UnLock` calls the cancel function a second time and issues a second
`Revoke` for lease 7; when the store answers that revoke with an error the second
`UnLock` returns an error, and when the store answers it with success the cancel
function and the revoke have still been repeated. -/
theorem UnLock_twice_repeats_release :
    ((EtcdMutex.fresh "k" 5).Lock "a" (.ok 7) Store.empty).err = none ∧
    afterLockUnLock.err = none ∧
    afterLockUnLock.mutex.lock = true ∧
    afterLockUnLock.mutex.cancel = 1 ∧
    (afterLockUnLock.mutex.UnLock (some (.other "requested lease not found"))
      afterLockUnLock.store).err = some (.other "释放锁异常: requested lease not found") ∧
    (afterLockUnLock.mutex.UnLock (some (.other "requested lease not found"))
      afterLockUnLock.store).mutex.cancel = 2 ∧
    (afterLockUnLock.mutex.UnLock (some (.other "requested lease not found"))
      afterLockUnLock.store).store.requests
      = [.Grant 5, .KeepAlive 7, .KeepAlive 7, .Txn "k" "a" 7, .Revoke 7, .Revoke 7] ∧
    (afterLockUnLock.mutex.UnLock none afterLockUnLock.store).mutex.cancel = 2 ∧
    (afterLockUnLock.mutex.UnLock none afterLockUnLock.store).store.requests
      = [.Grant 5, .KeepAlive 7, .KeepAlive 7, .Txn "k" "a" 7, .Revoke 7, .Revoke 7] := by
  decide

/-- A `Lock` that returns `nil` was granted a lease, bound the key to it, and left
the mutex Locked on that lease with its key unchanged. -/
theorem Lock_nil_inv (e : EtcdMutex) (v : String) (r : LockResponses) (s : Store)
    (h : (e.Lock v r s).err = none) :
    (e.Lock v r s).mutex.lock = true ∧ (e.Lock v r s).mutex.Key = e.Key ∧
    (e.Lock v r s).store.kvs e.Key = some ⟨v, (e.Lock v r s).mutex.leaseId⟩ := by
  unfold EtcdMutex.Lock at h ⊢
  cases hg : r.Grant with
  | error err => simp [hg, EtcdMutex.fail] at h
  | ok id =>
    cases hk : r.KeepAlive2 with
    | some err => simp [hg, hk, EtcdMutex.fail] at h
    | none =>
      cases hc : r.Commit with
      | some err => simp [hg, hk, hc, Store.Commit] at h
      | none =>
        cases hkv : s.kvs e.Key with
        | some kv => simp [hg, hk, hc, hkv, Store.Commit, Store.record] at h
        | none => simp [hg, hk, hc, hkv, Store.Commit, Store.record]

/-- A `Lock` whose lease grant and keepalive setup succeed and whose commit returns
a response returns `MutexGrabFAIL` when the key is present; it leaves the keys as
they are, the lock flag true, the cancel function not called and no revoke issued. -/
theorem Lock_present_returns_MutexGrabFAIL (e : EtcdMutex) (v : String) (r : LockResponses)
    (g : LeaseID) (s : Store) (kv : KeyValue)
    (hg : r.Grant = .ok g) (hk : r.KeepAlive2 = none) (hc : r.Commit = none)
    (hpresent : s.kvs e.Key = some kv) :
    (e.Lock v r s).err = some Error.MutexGrabFAIL ∧
    (e.Lock v r s).store.kvs = s.kvs ∧
    (e.Lock v r s).mutex.lock = true ∧
    (e.Lock v r s).mutex.cancel = 0 ∧
    (e.Lock v r s).store.requests
      = s.requests ++ [.Grant e.ttl, .KeepAlive g, .KeepAlive g, .Txn e.Key v g] := by
  simp [EtcdMutex.Lock, Store.Commit, Store.record, hg, hk, hc, hpresent]

/-- A `Lock` whose lease grant and keepalive setup succeed and whose commit returns
a response returns `nil` when the key is absent. -/
theorem Lock_absent_returns_nil (e : EtcdMutex) (v : String) (r : LockResponses)
    (g : LeaseID) (s : Store)
    (hg : r.Grant = .ok g) (hk : r.KeepAlive2 = none) (hc : r.Commit = none)
    (habsent : s.kvs e.Key = none) : (e.Lock v r s).err = none := by
  simp [EtcdMutex.Lock, Store.Commit, Store.record, hg, hk, hc, habsent]

/-- C7. Release round trip.  After a `Lock` that returned `nil`, an `UnLock` whose
`Revoke` succeeds returns `nil` and leaves the lock key absent: a `Get` on it
returns no entry.  On the store it leaves, a new `Lock` on the same key, by this or
any other mutex, returns `nil` when its lease grant and keepalive setup succeed and
its commit returns a response. -/
theorem Lock_UnLock_round_trip (e : EtcdMutex) (v : String) (r : LockResponses) (s : Store)
    (e2 : EtcdMutex) (v2 : String) (r2 : LockResponses) (g2 : LeaseID)
    (hlock : (e.Lock v r s).err = none)
    (hkey : e2.Key = e.Key) (hg : r2.Grant = .ok g2) (hk : r2.KeepAlive2 = none)
    (hc : r2.Commit = none) :
    ((e.Lock v r s).mutex.UnLock none (e.Lock v r s).store).err = none ∧
    ((e.Lock v r s).mutex.UnLock none (e.Lock v r s).store).store.Get e.Key = [] ∧
    (e2.Lock v2 r2 ((e.Lock v r s).mutex.UnLock none (e.Lock v r s).store).store).err
      = none := by
  obtain ⟨hl, _, hkv⟩ := Lock_nil_inv e v r s hlock
  have habs : ((e.Lock v r s).mutex.UnLock none (e.Lock v r s).store).store.kvs e.Key
      = none := by
    simp [EtcdMutex.UnLock, Store.Revoke, Store.record, hl, hkv]
  refine ⟨?_, ?_, ?_⟩
  · simp [EtcdMutex.UnLock, Store.Revoke, hl]
  · simp [Store.Get, habs]
  · exact Lock_absent_returns_nil e2 v2 r2 g2 _ hg hk hc (hkey ▸ habs)

/-- Witness of `Lock_UnLock_round_trip`: a fresh mutex on key `k` locks an empty
store with lease 7 and unlocks; the same mutex then locks again with lease 8. -/
theorem Lock_UnLock_round_trip_witness :
    (((EtcdMutex.fresh "k" 5).Lock "a" (.ok 7) Store.empty).mutex.UnLock none
      ((EtcdMutex.fresh "k" 5).Lock "a" (.ok 7) Store.empty).store).err = none ∧
    (((EtcdMutex.fresh "k" 5).Lock "a" (.ok 7) Store.empty).mutex.UnLock none
      ((EtcdMutex.fresh "k" 5).Lock "a" (.ok 7) Store.empty).store).store.Get "k" = [] ∧
    (afterLockUnLock.mutex.Lock "b" (.ok 8)
      (((EtcdMutex.fresh "k" 5).Lock "a" (.ok 7) Store.empty).mutex.UnLock none
        ((EtcdMutex.fresh "k" 5).Lock "a" (.ok 7) Store.empty).store).store).err = none :=
  Lock_UnLock_round_trip (EtcdMutex.fresh "k" 5) "a" (.ok 7) Store.empty
    afterLockUnLock.mutex "b" (.ok 8) 8 (by decide) (by decide) rfl rfl rfl

/-! ## Theorems: Watcher -/

/-- One event handled against a scripted mutex: one more `Lock` was attempted, and
the attempts grow by that `Lock` and, when it succeeded, the matching handler. -/
theorem handle_scripted (lo uo : Nat → Option Error) (now : Run → String) (event : Event)
    (w : Run) :
    (watcher.handle (scripted lo uo) now Run.putFunc Run.delFunc event w).locks = w.locks + 1 ∧
    (watcher.handle (scripted lo uo) now Run.putFunc Run.delFunc event w).attempts
      = w.attempts
        ++ (Call.Lock w.locks :: (if lo w.locks = none then [Call.handler event] else [])) := by
  rcases event with ⟨t, k, v⟩
  cases t <;> cases h : lo w.locks <;>
    simp [watcher.handle, watcher.putLock, watcher.putSwitch, watcher.putDeferred, scripted,
      Run.putFunc, Run.delFunc, Run.attempts, Call.handler, h]

/-- The events of one watch response handled against a scripted mutex. -/
theorem handle_events_scripted (lo uo : Nat → Option Error) (now : Run → String)
    (events : List Event) (w : Run) :
    (events.foldl (fun w event =>
        watcher.handle (scripted lo uo) now Run.putFunc Run.delFunc event w) w).locks
      = w.locks + events.length ∧
    (events.foldl (fun w event =>
        watcher.handle (scripted lo uo) now Run.putFunc Run.delFunc event w) w).attempts
      = w.attempts ++ dispatchSpec lo w.locks events := by
  induction events generalizing w with
  | nil => simp [dispatchSpec]
  | cons event rest ih =>
    obtain ⟨h1, h2⟩ := handle_scripted lo uo now event w
    obtain ⟨ih1, ih2⟩ := ih (watcher.handle (scripted lo uo) now Run.putFunc Run.delFunc event w)
    simp only [List.foldl_cons, List.length_cons]
    refine ⟨by omega, ?_⟩
    rw [ih2, h2, h1]
    simp [dispatchSpec]

/-- The dispatch contract of consecutive batches of events. -/
theorem dispatchSpec_append (lo : Nat → Option Error) (i : Nat) (xs ys : List Event) :
    dispatchSpec lo i (xs ++ ys) = dispatchSpec lo i xs ++ dispatchSpec lo (i + xs.length) ys := by
  induction xs generalizing i with
  | nil => simp [dispatchSpec]
  | cons x rest ih =>
    have hlen : i + 1 + rest.length = i + (rest.length + 1) := by omega
    have hrest := ih (i + 1)
    rw [hlen] at hrest
    simp [dispatchSpec, hrest]

/-- The whole run of `Watcher` against a scripted mutex, from any world. -/
theorem Watcher_scripted (lo uo : Nat → Option Error) (now : Run → String)
    (responses : List (List Event)) (w : Run) :
    (watcher.Watcher (scripted lo uo) now responses Run.putFunc Run.delFunc w).locks
      = w.locks + responses.flatten.length ∧
    (watcher.Watcher (scripted lo uo) now responses Run.putFunc Run.delFunc w).attempts
      = w.attempts ++ dispatchSpec lo w.locks responses.flatten := by
  induction responses generalizing w with
  | nil => simp [watcher.Watcher, dispatchSpec]
  | cons res rest ih =>
    obtain ⟨h1, h2⟩ := handle_events_scripted lo uo now res w
    have ih2 := ih (res.foldl (fun w event =>
        watcher.handle (scripted lo uo) now Run.putFunc Run.delFunc event w) w)
    simp only [watcher.Watcher, List.foldl_cons] at ih2 ⊢
    obtain ⟨ih1, ih2⟩ := ih2
    refine ⟨?_, ?_⟩
    · rw [ih1, h1]; simp; omega
    · rw [ih2, h2, h1]; simp [dispatchSpec_append]

/-- C8. Dispatcher handler selection.  For every finite sequence of watch responses
and every sequence of outcomes of `Lock` and of `UnLock`, `Watcher` attempts `Lock`
once per event, and its `Lock` attempts and handler calls are, event by event in
arrival order, the `Lock` followed by `putFunc` with the event (Put) or `delFunc`
(Delete) exactly when that `Lock` returned `nil`; after a failed `Lock`, whatever
its error, no handler is called and the next event is processed. -/
theorem Watcher_handler_selection (lockOutcome unlockOutcome : Nat → Option Error)
    (now : Run → String) (responses : List (List Event)) :
    (watcher.Watcher (scripted lockOutcome unlockOutcome) now responses
        Run.putFunc Run.delFunc ⟨0, 0, []⟩).locks = responses.flatten.length ∧
    (watcher.Watcher (scripted lockOutcome unlockOutcome) now responses
        Run.putFunc Run.delFunc ⟨0, 0, []⟩).attempts
      = dispatchSpec lockOutcome 0 responses.flatten := by
  have h := Watcher_scripted lockOutcome unlockOutcome now responses ⟨0, 0, []⟩
  simpa [Run.attempts] using h

/-- C9, as stated, fails.  In the scenario instance `A` handles the Put event of
`/jobs/1` to the end (`Lock`, `onPut`, `UnLock`) before the event is handled by
instance `B`: the `Lock` of `B` finds the coordination key released and returns
`nil` too, and both `onPut` handlers execute for the event. -/
theorem both_handlers_run_when_sequential :
    (watcher.Watcher (Cluster.mtx .B (scenarioAnswers .B)) (fun _ => "t1") [[jobPut]]
      (Cluster.onPut .B) Cluster.onDelete
      (watcher.Watcher (Cluster.mtx .A (scenarioAnswers .A)) (fun _ => "t0") [[jobPut]]
        (Cluster.onPut .A) Cluster.onDelete scenario)).notes
      = [.lockReturned .A none, .onPut .A jobPut, .lockReturned .B none, .onPut .B jobPut] := by
  decide

/-- The three steps of an instance taken in a row are the Put branch of `Watcher`
for the event. -/
theorem run_three_steps (answers : Instance → Answers) (now : Cluster → String)
    (event : Event) (hput : event.typ = .PUT) (c : Cluster) (ph : Phase) :
    (System.run answers now event [.A, .A, .A] ⟨.start, ph, c⟩).cluster
      = watcher.Watcher (Cluster.mtx .A (answers .A)) now [[event]]
          (Cluster.onPut .A) Cluster.onDelete c := by
  simp [System.run, System.step, Cluster.step, watcher.Watcher, watcher.handle, hput]

/-- A schedule in which each instance takes three steps has six steps. -/
theorem schedule_length (schedule : List Instance)
    (hA : schedule.count .A = 3) (hB : schedule.count .B = 3) : schedule.length = 6 := by
  have h : ∀ l : List Instance, l.count .A + l.count .B = l.length := by
    intro l
    induction l with
    | nil => simp
    | cons x rest ih => cases x <;> simp [List.count_cons] <;> omega
  have := h schedule
  omega

/-- C9, amended.  Two dispatcher instances with mutexes on one coordination key
each handle the same Put event; the key is absent at the start and every lease
grant, keepalive setup and commit succeeds.  For every interleaving of their steps
(`Lock`, switch, deferred `UnLock`) both instances finish, and:
when the handlings overlap, that is, the `Lock` of the second instance happens
before the `UnLock` of the first, exactly one `onPut` handler executes, the `Lock`
of that instance returned `nil` and the `Lock` of the other returned
`MutexGrabFAIL`;
when one instance has finished before the other attempts `Lock` and the `Revoke` of
its `UnLock` succeeded, the key has been released, both `Lock` calls return `nil`
and both handlers execute;
when one instance has finished before the other attempts `Lock` and the `Revoke` of
its `UnLock` failed, the key is still held and only the handler of the first
instance executes, the `Lock` of the other returning `MutexGrabFAIL`. -/
theorem two_dispatchers_one_event (eA eB : EtcdMutex) (s : Store)
    (answers : Instance → Answers) (gA gB : LeaseID) (now : Cluster → String)
    (event : Event) (schedule : List Instance) (_hput : event.typ = .PUT)
    (hkey : eA.Key = eB.Key) (habsent : s.kvs eA.Key = none)
    (hA : (answers .A).lock.Healthy gA) (hB : (answers .B).lock.Healthy gB)
    (hcA : schedule.count .A = 3) (hcB : schedule.count .B = 3) :
    (System.run answers now event schedule ⟨.start, .start, ⟨s, eA, eB, []⟩⟩).phaseA = .done ∧
    (System.run answers now event schedule ⟨.start, .start, ⟨s, eA, eB, []⟩⟩).phaseB = .done ∧
    ((schedule ≠ sequential .A ∧ schedule ≠ sequential .B ∧
        ((System.run answers now event schedule
            ⟨.start, .start, ⟨s, eA, eB, []⟩⟩).cluster.onlyHandler .A ∨
          (System.run answers now event schedule
            ⟨.start, .start, ⟨s, eA, eB, []⟩⟩).cluster.onlyHandler .B)) ∨
      (schedule = sequential .A ∧ (answers .A).revoke = none ∧
        (System.run answers now event schedule
          ⟨.start, .start, ⟨s, eA, eB, []⟩⟩).cluster.bothHandlers .A) ∨
      (schedule = sequential .B ∧ (answers .B).revoke = none ∧
        (System.run answers now event schedule
          ⟨.start, .start, ⟨s, eA, eB, []⟩⟩).cluster.bothHandlers .B) ∨
      (schedule = sequential .A ∧ (answers .A).revoke ≠ none ∧
        (System.run answers now event schedule
          ⟨.start, .start, ⟨s, eA, eB, []⟩⟩).cluster.onlyHandler .A) ∨
      (schedule = sequential .B ∧ (answers .B).revoke ≠ none ∧
        (System.run answers now event schedule
          ⟨.start, .start, ⟨s, eA, eB, []⟩⟩).cluster.onlyHandler .B)) := by
  obtain ⟨hgA, hkA, hcmA⟩ := hA
  obtain ⟨hgB, hkB, hcmB⟩ := hB
  have habsB : s.kvs eB.Key = none := hkey ▸ habsent
  by_cases hsA : schedule = sequential .A
  · subst hsA
    cases hr : (answers .A).revoke <;>
      simp [sequential, Instance.other, System.run, System.step, Cluster.step, watcher.putLock,
        watcher.putSwitch, watcher.putDeferred, Cluster.mtx, Cluster.mutex, Cluster.setMutex,
        Cluster.onPut, Cluster.handlers, Cluster.lockResults, Cluster.onlyHandler,
        Cluster.bothHandlers, EtcdMutex.Lock, EtcdMutex.UnLock, Store.Commit, Store.Revoke,
        Store.record, Option.filter, errorsIs, hgA, hkA, hcmA, hgB, hkB, hcmB, habsent, habsB,
        hkey, hr]
  · by_cases hsB : schedule = sequential .B
    · subst hsB
      cases hr : (answers .B).revoke <;>
        simp [sequential, Instance.other, System.run, System.step, Cluster.step,
          watcher.putLock, watcher.putSwitch, watcher.putDeferred, Cluster.mtx, Cluster.mutex,
          Cluster.setMutex, Cluster.onPut, Cluster.handlers, Cluster.lockResults,
          Cluster.onlyHandler, Cluster.bothHandlers, EtcdMutex.Lock, EtcdMutex.UnLock,
          Store.Commit, Store.Revoke, Store.record, Option.filter, errorsIs, hgA, hkA, hcmA,
          hgB, hkB, hcmB, habsent, habsB, hkey, hr]
    · have hlen := schedule_length schedule hcA hcB
      rcases schedule with
        _ | ⟨a, _ | ⟨b, _ | ⟨c, _ | ⟨d, _ | ⟨e, _ | ⟨f, _ | ⟨g, rest⟩⟩⟩⟩⟩⟩⟩ <;>
        simp at hlen
      cases a <;> cases b <;> cases c <;> cases d <;> cases e <;> cases f <;>
        first
        | (exfalso; revert hcA hcB hsA hsB; decide)
        | simp [sequential, Instance.other, System.run, System.step, Cluster.step,
            watcher.putLock, watcher.putSwitch, watcher.putDeferred, Cluster.mtx,
            Cluster.mutex, Cluster.setMutex, Cluster.onPut, Cluster.handlers,
            Cluster.lockResults, Cluster.onlyHandler, Cluster.bothHandlers, EtcdMutex.Lock,
            EtcdMutex.UnLock, Store.Commit, Store.Revoke, Store.record, errorsIs, hgA, hkA,
            hcmA, hgB, hkB, hcmB, habsent, habsB, hkey]

/-- Witness of `two_dispatchers_one_event`: the scenario with the schedule in which
`B` locks and gives up while `A` holds the lock. -/
theorem two_dispatchers_one_event_witness :
    (System.run scenarioAnswers (fun _ => "t") jobPut [.A, .B, .B, .A, .B, .A]
      ⟨.start, .start, scenario⟩).phaseA = .done ∧
    (System.run scenarioAnswers (fun _ => "t") jobPut [.A, .B, .B, .A, .B, .A]
      ⟨.start, .start, scenario⟩).phaseB = .done ∧
    (([Instance.A, .B, .B, .A, .B, .A] ≠ sequential .A ∧
        [Instance.A, .B, .B, .A, .B, .A] ≠ sequential .B ∧
        ((System.run scenarioAnswers (fun _ => "t") jobPut [.A, .B, .B, .A, .B, .A]
            ⟨.start, .start, scenario⟩).cluster.onlyHandler .A ∨
          (System.run scenarioAnswers (fun _ => "t") jobPut [.A, .B, .B, .A, .B, .A]
            ⟨.start, .start, scenario⟩).cluster.onlyHandler .B)) ∨
      ([Instance.A, .B, .B, .A, .B, .A] = sequential .A ∧ (scenarioAnswers .A).revoke = none ∧
        (System.run scenarioAnswers (fun _ => "t") jobPut [.A, .B, .B, .A, .B, .A]
          ⟨.start, .start, scenario⟩).cluster.bothHandlers .A) ∨
      ([Instance.A, .B, .B, .A, .B, .A] = sequential .B ∧ (scenarioAnswers .B).revoke = none ∧
        (System.run scenarioAnswers (fun _ => "t") jobPut [.A, .B, .B, .A, .B, .A]
          ⟨.start, .start, scenario⟩).cluster.bothHandlers .B) ∨
      ([Instance.A, .B, .B, .A, .B, .A] = sequential .A ∧ (scenarioAnswers .A).revoke ≠ none ∧
        (System.run scenarioAnswers (fun _ => "t") jobPut [.A, .B, .B, .A, .B, .A]
          ⟨.start, .start, scenario⟩).cluster.onlyHandler .A) ∨
      ([Instance.A, .B, .B, .A, .B, .A] = sequential .B ∧ (scenarioAnswers .B).revoke ≠ none ∧
        (System.run scenarioAnswers (fun _ => "t") jobPut [.A, .B, .B, .A, .B, .A]
          ⟨.start, .start, scenario⟩).cluster.onlyHandler .B)) :=
  two_dispatchers_one_event (EtcdMutex.fresh "/lock" 5) (EtcdMutex.fresh "/lock" 5)
    Store.empty scenarioAnswers 7 8 (fun _ => "t") jobPut [.A, .B, .B, .A, .B, .A] rfl rfl rfl
    ⟨rfl, rfl, rfl⟩ ⟨rfl, rfl, rfl⟩ (by decide) (by decide)

/-- The three cases in the scenario.  With the overlapping schedule only the handler
of `A` runs.  With `A` finished before `B` starts, both handlers run when the
`Revoke` of `A` succeeds, and only the handler of `A` runs when the store answers
that `Revoke` with an error. -/
theorem scenario_runs :
    (System.run scenarioAnswers (fun _ => "t") jobPut [.A, .B, .B, .A, .B, .A]
      ⟨.start, .start, scenario⟩).cluster.onlyHandler .A ∧
    (System.run scenarioAnswers (fun _ => "t") jobPut (sequential .A)
      ⟨.start, .start, scenario⟩).cluster.bothHandlers .A ∧
    (System.run (fun _ => ⟨.ok 7, some (.other "etcdserver: request timed out")⟩)
      (fun _ => "t") jobPut (sequential .A)
      ⟨.start, .start, scenario⟩).cluster.onlyHandler .A := by
  decide

/-! ## Theorems: struct payloads -/

/-- C10. Evaluation of the round trip of the test value.  `PushStruct` of the
`Task` of the test succeeds and enqueues its JSON document with priority 50.
`PopStruct` with the target `Task{}` of the test, the queue returning that
document, returns a nil error and a `map[string]interface{}` whose numbers are
`float64`: not a `Task`, and not equal to the value pushed. -/
theorem PopStruct_returns_map :
    (priorityQ.PushStruct testTask 50 none).1 = none ∧
    (priorityQ.PushStruct testTask 50 none).2.2 = 50 ∧
    priorityQ.PopStruct (.struct zeroTask) (.ok (priorityQ.PushStruct testTask 50 none).2.1)
      = (some (.map [("scheduleId", .float64 10), ("batchCode", .float64 21748678642),
          ("batchId", .float64 1), ("time", .string "2023-1-2 12:23:44"),
          ("runTime", .string ""), ("publishModel", .float64 4),
          ("workOrderId", .float64 11023)]), none) ∧
    (priorityQ.PopStruct (.struct zeroTask)
      (.ok (priorityQ.PushStruct testTask 50 none).2.1)).1 ≠ some (.struct testTask) := by
  decide

/-! ## Theorems: grant failure, lease identifiers, keepalive task -/

/-- C11. Grant failure.  For every mutex and owner token, a `Lock` whose lease
`Grant` fails returns that grant error and submits no transaction: the only
requests it issues are the grant and the revoke of the `FAIL` label, which is issued
on the cancelled context and applies nothing, so the keys of the store are
unchanged.  The lock flag, the stored lease id, the key and the ttl of the mutex
remain as they were: an Unlocked mutex stays Unlocked. -/
theorem Lock_grant_failure (e : EtcdMutex) (v : String) (r : LockResponses) (err : Error)
    (s : Store) (hg : r.Grant = .error err) :
    (e.Lock v r s).err = some err ∧
    (e.Lock v r s).store.kvs = s.kvs ∧
    (e.Lock v r s).store.requests = s.requests ++ [.Grant e.ttl, .Revoke e.leaseId] ∧
    (e.Lock v r s).mutex.lock = e.lock ∧
    (e.Lock v r s).mutex = { e with cancel := 1 } := by
  simp [EtcdMutex.Lock, EtcdMutex.fail, Store.Revoke, Store.record, hg]

/-- Witness of `Lock_grant_failure`: the mutex that holds key `k` under lease 7
calls `Lock` again and the grant fails. -/
theorem Lock_grant_failure_witness :
    (afterLock.mutex.Lock "b" (.grantFails (.other "etcdserver: request timed out"))
      afterLock.store).err = some (.other "etcdserver: request timed out") ∧
    (afterLock.mutex.Lock "b" (.grantFails (.other "etcdserver: request timed out"))
      afterLock.store).store.kvs = afterLock.store.kvs ∧
    (afterLock.mutex.Lock "b" (.grantFails (.other "etcdserver: request timed out"))
      afterLock.store).store.requests
      = afterLock.store.requests
        ++ [.Grant afterLock.mutex.ttl, .Revoke afterLock.mutex.leaseId] ∧
    (afterLock.mutex.Lock "b" (.grantFails (.other "etcdserver: request timed out"))
      afterLock.store).mutex.lock = afterLock.mutex.lock ∧
    (afterLock.mutex.Lock "b" (.grantFails (.other "etcdserver: request timed out"))
      afterLock.store).mutex = { afterLock.mutex with cancel := 1 } :=
  Lock_grant_failure afterLock.mutex "b" (.grantFails (.other "etcdserver: request timed out"))
    (.other "etcdserver: request timed out") afterLock.store rfl

/-- The sum `g + 1` of `int64` values: it is `g + 1` unless `g` is the largest
`int64`, where it wraps around to the smallest. -/
theorem int64_succ (g : Int) (hlo : -2 ^ 63 ≤ g) (hhi : g < 2 ^ 63) :
    int64 (g + 1) = if g = 2 ^ 63 - 1 then -2 ^ 63 else g + 1 := by
  unfold int64
  split_ifs with h
  · subst h; norm_num
  · norm_num at hlo hhi h ⊢
    omega

/-- C12. Lease identifier handling.  For every lease id `g` that `Grant` returns,
`Init` stores `g + 1` (the sum of `int64` values) as the lease id of the mutex and
issues `KeepAlive` on `g + 1`, and so does `NewMutex`, which runs `Init` on the new
mutex; `Lock` stores `g` itself, issues both `KeepAlive` calls on `g` and submits
the transaction that binds the key to `g`. -/
theorem lease_id_handling (e : EtcdMutex) (v : String) (r : LockResponses) (g : LeaseID)
    (keepAlive : Option Error) (s : Store) (name : String) (ttl : Int)
    (hlo : -2 ^ 63 ≤ g) (hhi : g < 2 ^ 63)
    (hg : r.Grant = .ok g) (hk : r.KeepAlive2 = none) :
    int64 (g + 1) = (if g = 2 ^ 63 - 1 then -2 ^ 63 else g + 1) ∧
    (e.Init (.ok g) keepAlive s).mutex.leaseId = int64 (g + 1) ∧
    (e.Init (.ok g) keepAlive s).store.requests
      = s.requests ++ [.Grant e.ttl, .KeepAlive (int64 (g + 1))] ∧
    (NewMutex true none name ttl (.ok g) keepAlive s).1
      = some ⟨ttl, name, 0, int64 (g + 1), false⟩ ∧
    (NewMutex true none name ttl (.ok g) keepAlive s).2.requests
      = s.requests ++ [.Grant ttl, .KeepAlive (int64 (g + 1))] ∧
    (e.Lock v r s).mutex.leaseId = g ∧
    (e.Lock v r s).store.requests
      = s.requests ++ [.Grant e.ttl, .KeepAlive g, .KeepAlive g, .Txn e.Key v g] := by
  refine ⟨int64_succ g hlo hhi, ?_, ?_, ?_, ?_, ?_, ?_⟩
  · simp [EtcdMutex.Init]
  · simp [EtcdMutex.Init, Store.record]
  · simp [NewMutex, EtcdMutex.Init, EtcdMutex.fresh]
  · simp [NewMutex, EtcdMutex.Init, EtcdMutex.fresh, Store.record]
  · cases hc : r.Commit <;> cases hkv : s.kvs e.Key <;>
      simp [EtcdMutex.Lock, Store.Commit, Store.record, hg, hk, hc, hkv]
  · cases hc : r.Commit <;> cases hkv : s.kvs e.Key <;>
      simp [EtcdMutex.Lock, Store.Commit, Store.record, hg, hk, hc, hkv]

/-- Witness of `lease_id_handling`: `Grant` returns lease 7 on an empty store. -/
theorem lease_id_handling_witness :
    int64 (7 + 1) = (if (7 : Int) = 2 ^ 63 - 1 then -2 ^ 63 else 7 + 1) ∧
    ((EtcdMutex.fresh "k" 5).Init (.ok 7) none Store.empty).mutex.leaseId = int64 (7 + 1) ∧
    ((EtcdMutex.fresh "k" 5).Init (.ok 7) none Store.empty).store.requests
      = [] ++ [.Grant 5, .KeepAlive (int64 (7 + 1))] ∧
    (NewMutex true none "k" 5 (.ok 7) none Store.empty).1
      = some ⟨5, "k", 0, int64 (7 + 1), false⟩ ∧
    (NewMutex true none "k" 5 (.ok 7) none Store.empty).2.requests
      = [] ++ [.Grant 5, .KeepAlive (int64 (7 + 1))] ∧
    ((EtcdMutex.fresh "k" 5).Lock "a" (.ok 7) Store.empty).mutex.leaseId = 7 ∧
    ((EtcdMutex.fresh "k" 5).Lock "a" (.ok 7) Store.empty).store.requests
      = [] ++ [.Grant 5, .KeepAlive 7, .KeepAlive 7, .Txn "k" "a" 7] :=
  lease_id_handling (EtcdMutex.fresh "k" 5) "a" (.ok 7) 7 none Store.empty "k" 5
    (by decide) (by decide) rfl rfl

/-- While the channel yields acknowledgements the task consumes each of them and
does not end. -/
theorem keepAliveTask_acks (acks : List LeaseKeepAliveResponse) :
    keepAliveTask (acks.map some) = ⟨acks.length, acks.length, false⟩ := by
  induction acks with
  | nil => rfl
  | cons a rest ih => simp [keepAliveTask, ih]

/-- C13. Keepalive draining.  On a stream of `n` acknowledgements followed by the
end of the stream (a `nil` receive, whatever the channel would yield later) the task
consumes all `n` acknowledgements and then ends; and as long as the stream has not
ended, that is after any number `k` of the acknowledgements, it has consumed all of
them and has not ended. -/
theorem keepAliveTask_drains (acks : List LeaseKeepAliveResponse)
    (later : List (Option LeaseKeepAliveResponse)) (k : Nat) :
    keepAliveTask (acks.map some ++ none :: later) = ⟨acks.length, acks.length, true⟩ ∧
    keepAliveTask ((acks.take k).map some)
      = ⟨min k acks.length, min k acks.length, false⟩ := by
  constructor
  · induction acks with
    | nil => rfl
    | cons a rest ih => simp [keepAliveTask, ih]
  · rw [keepAliveTask_acks]
    simp

/-! ## Theorems: the two branches of Watcher, EKV -/

/-- After a `Lock` that returned `nil` the Put branch and the Delete branch make the
same calls on the mutex, `Lock` then `UnLock`, around their handler. -/
theorem branches_agree_on_success (lo uo : Nat → Option Error) (now : Run → String)
    (k v : String) (w : Run) (hl : lo w.locks = none) :
    (watcher.handle (scripted lo uo) now Run.putFunc Run.delFunc ⟨.PUT, k, v⟩ w).calls
      = w.calls ++ [.Lock w.locks, .putFunc ⟨.PUT, k, v⟩, .UnLock] ∧
    (watcher.handle (scripted lo uo) now Run.putFunc Run.delFunc ⟨.DELETE, k, v⟩ w).calls
      = w.calls ++ [.Lock w.locks, .delFunc, .UnLock] := by
  simp [watcher.handle, watcher.putLock, watcher.putSwitch, watcher.putDeferred, scripted,
    Run.putFunc, Run.delFunc, hl]

/-- After a `Lock` that returned an error the Put branch calls `UnLock` and the
Delete branch does not. -/
theorem branches_differ_on_failure (lo uo : Nat → Option Error) (now : Run → String)
    (k v : String) (w : Run) (err : Error) (hl : lo w.locks = some err) :
    (watcher.handle (scripted lo uo) now Run.putFunc Run.delFunc ⟨.PUT, k, v⟩ w).calls
      = w.calls ++ [.Lock w.locks, .UnLock] ∧
    (watcher.handle (scripted lo uo) now Run.putFunc Run.delFunc ⟨.DELETE, k, v⟩ w).calls
      = w.calls ++ [.Lock w.locks] := by
  simp [watcher.handle, watcher.putLock, watcher.putSwitch, watcher.putDeferred, scripted,
    Run.putFunc, Run.delFunc, hl]

/-- C14. Evaluation of the two branches on a `Lock` that fails on contention.
Against a mutex whose `Lock` returns `MutexGrabFAIL` the Put branch calls `Lock` and
then `UnLock`, the Delete branch calls `Lock` only.  With the `EtcdMutex` of a
dispatcher whose coordination key is held by another owner, the Put branch ends with
`Revoke` issued for lease 7, the lease granted for the event, and the Delete branch
ends without any `Revoke`. -/
theorem Delete_branch_skips_UnLock :
    (watcher.handle alwaysContended (fun _ => "t") Run.putFunc Run.delFunc jobPut
      ⟨0, 0, []⟩).calls = [.Lock 0, .UnLock] ∧
    (watcher.handle alwaysContended (fun _ => "t") Run.putFunc Run.delFunc jobDelete
      ⟨0, 0, []⟩).calls = [.Lock 0] ∧
    (watcher.handle (Cluster.mtx .A ⟨.ok 7, none⟩) (fun _ => "t") (Cluster.onPut .A)
      Cluster.onDelete jobPut contended).notes
      = [.lockReturned .A (some .MutexGrabFAIL)] ∧
    (watcher.handle (Cluster.mtx .A ⟨.ok 7, none⟩) (fun _ => "t") (Cluster.onPut .A)
      Cluster.onDelete jobPut contended).store.requests
      = [.Grant 5, .KeepAlive 7, .KeepAlive 7, .Txn "/lock" "t" 7, .Revoke 7] ∧
    (watcher.handle (Cluster.mtx .A ⟨.ok 7, none⟩) (fun _ => "t") (Cluster.onPut .A)
      Cluster.onDelete jobDelete contended).notes
      = [.lockReturned .A (some .MutexGrabFAIL)] ∧
    (watcher.handle (Cluster.mtx .A ⟨.ok 7, none⟩) (fun _ => "t") (Cluster.onPut .A)
      Cluster.onDelete jobDelete contended).store.requests
      = [.Grant 5, .KeepAlive 7, .KeepAlive 7, .Txn "/lock" "t" 7] := by
  decide

/-- On an error of the store and on a response with at least one entry `EKV.Get`
returns: the empty string with the error, or the value of the first entry with a
nil error. -/
theorem Get_returns (err : Error) (kv : KeyValue) (rest : List KeyValue) :
    EKV.Get (.error err) = .value ("", some err) ∧
    EKV.Get (.ok (kv :: rest)) = .value (kv.Value, none) := by
  simp [EKV.Get]

/-- C15. Evaluation of `EKV.Get` on an absent key.  After the lock key `k` was
locked and released, the store answers a `Get` on it successfully with zero entries,
and `EKV.Get` indexes past the end of that list: it panics instead of returning. -/
theorem Get_absent_key_panics :
    afterLockUnLock.store.Get "k" = [] ∧
    EKV.Get (.ok (afterLockUnLock.store.Get "k"))
      = .panic "runtime error: index out of range [0] with length 0" ∧
    EKV.Get (.ok (Store.empty.Get "k"))
      = .panic "runtime error: index out of range [0] with length 0" := by
  decide

end Etcd
